import Mathlib

/-!
Verification of the recovery-partition upgrade tool (pop-upgrade excerpt):
a shallow embedding of `src/release/check.rs` and `src/recovery/mod.rs`,
with theorems checking the specification's claims against the code.

External collaborators (clap, distinst, tempfile, sys_mount, isahc,
parallel_getter) and repository crates whose sources are not part of this
excerpt (release_api, checksum, external, misc) appear as opaque data or
as outcome parameters in an environment record, so that the control flow
of the embedded functions is exactly that of the Rust source.
-/

namespace PopUpgrade

/-- Outcome of a Rust computation that may terminate the whole process via
the panic macro: `panicked msg` models a process-terminating abort, `ok`
a normal return value. -/
inductive PanicOr (α : Type) where
  | panicked (msg : String)
  | ok (val : α)
deriving DecidableEq

namespace PanicOr

def isPanicked {α : Type} : PanicOr α → Bool
  | .panicked _ => true
  | .ok _ => false

end PanicOr

/-- Opaque stand-in for the transport error type `isahc::Error`; only its
inhabitation matters to the embedded code. -/
structure IsahcError where
  detail : Nat
deriving DecidableEq

/-- Opaque stand-in for `isahc::http::StatusCode`. -/
structure StatusCode where
  code : Nat
deriving DecidableEq

/-- Modelled from the spec: the remote catalog's failure taxonomy
(`release_api::ApiError`, a repository crate whose source is not in this
excerpt): a transport failure (`Get`), a non-success response status
(`Status`), and any other catalog-internal failure. -/
inductive ApiError where
  | Get (why : IsahcError)
  | Status (code : StatusCode)
  | Other (detail : Nat)
deriving DecidableEq

/-- `ubuntu_version::Version`: the installed OS's version identifiers. -/
structure Version where
  major : Nat
  minor : Nat
  patch : Nat
deriving DecidableEq

/-- `BuildStatus` from `src/release/check.rs`. -/
inductive BuildStatus where
  | Blacklisted
  | Build (build : Nat)
  | ConnectionIssue (why : IsahcError)
  | InternalIssue (why : ApiError)
  | ServerStatus (code : StatusCode)
deriving DecidableEq

/-- Rust's `as i16` cast applied to a `u16` value: two's-complement
reinterpretation, with the `u16` range made explicit by reducing mod 2^16. -/
def u16_as_i16 (n : Nat) : Int :=
  if n % 65536 < 32768 then ((n % 65536 : Nat) : Int)
  else ((n % 65536 : Nat) : Int) - 65536

namespace BuildStatus

/-- `BuildStatus::is_ok`. -/
def is_ok : BuildStatus → Bool
  | .Build _ => true
  | _ => false

/-- `BuildStatus::status_code`: the Rust body returns `build as i16` in the
`Build` arm and fixed negatives elsewhere. -/
def status_code : BuildStatus → Int
  | .ConnectionIssue _ => -3
  | .ServerStatus _ => -2
  | .InternalIssue _ => -1
  | .Build build => u16_as_i16 build
  | .Blacklisted => -4

/-- `impl From<Result<u16, ApiError>> for BuildStatus`. -/
def from_result : Except ApiError Nat → BuildStatus
  | .error (.Get why) => .ConnectionIssue why
  | .error (.Status why) => .ServerStatus why
  | .error otherwise => .InternalIssue otherwise
  | .ok build => .Build build

/-- `impl PartialEq for BuildStatus`: the `eq` method's match, verbatim. -/
def beq : BuildStatus → BuildStatus → Bool
  | .Blacklisted, .Blacklisted => true
  | .ConnectionIssue _, .ConnectionIssue _ => true
  | .InternalIssue _, .InternalIssue _ => true
  | .ServerStatus _, .ServerStatus _ => true
  | .Build a, .Build b => a == b
  | _, _ => false

/-- Variant discriminant, used to state which values belong to different
variants of `BuildStatus`. -/
def tag : BuildStatus → Nat
  | .Blacklisted => 0
  | .Build _ => 1
  | .ConnectionIssue _ => 2
  | .InternalIssue _ => 3
  | .ServerStatus _ => 4

end BuildStatus

/-- `ReleaseStatus` from `src/release/check.rs`. -/
structure ReleaseStatus where
  current : String
  next : String
  build : BuildStatus
  is_lts : Bool
deriving DecidableEq

/-- The panic message of the unsupported-release arms in
`src/release/check.rs`. -/
def unsupportedMsg : String :=
  "this version of pop-upgrade is not supported on this release"

/-- `release_str` from `src/release/check.rs`: the fixed table mapping the
detected (major, minor) to the canonical release string; the catch-all arm
panics. -/
def release_str (major minor : Nat) : PanicOr String :=
  match major, minor with
  | 18, 4 => .ok "18.04"
  | 19, 10 => .ok "18.10"
  | 20, 4 => .ok "20.04"
  | 20, 10 => .ok "20.10"
  | 21, 4 => .ok "21.04"
  | _, _ => .panicked unsupportedMsg

/-- `next_` from `src/release/check.rs`: the forward-transition table.
The build-check collaborator is the `release_check` closure argument, as in
the source; the catch-all arm panics. -/
def next_ (current : Version) (development : Bool)
    (release_check : String → BuildStatus) : PanicOr ReleaseStatus :=
  match current.major, current.minor with
  | 18, 4 =>
      .ok { build := release_check "20.04", current := "18.04",
            is_lts := true, next := "20.04" }
  | 19, 10 =>
      .ok { build := release_check "20.04", current := "19.10",
            is_lts := false, next := "20.04" }
  | 20, 4 =>
      .ok { build := release_check "20.10", current := "20.04",
            is_lts := true, next := "20.10" }
  | 20, 10 =>
      .ok { build := if development then release_check "21.04"
                     else BuildStatus.Blacklisted,
            current := "20.10", is_lts := false, next := "21.04" }
  | 21, 4 =>
      .ok { build := BuildStatus.Blacklisted, current := "21.04",
            is_lts := false, next := "21.10" }
  | _, _ => .panicked unsupportedMsg

/-- The five (major, minor) pairs the transition table supports. -/
def supportedPair (major minor : Nat) : Prop :=
  (major, minor) = (18, 4) ∨ (major, minor) = (19, 10) ∨
  (major, minor) = (20, 4) ∨ (major, minor) = (20, 10) ∨
  (major, minor) = (21, 4)

instance (major minor : Nat) : Decidable (supportedPair major minor) := by
  unfold supportedPair
  infer_instance

deriving instance DecidableEq for Except

/-- Opaque stand-in for `std::io::Error`. -/
structure IoError where
  detail : Nat
deriving DecidableEq

/-- Opaque stand-in for `checksum::ValidateError` (repository crate whose
source is not in this excerpt). -/
structure ValidateError where
  detail : Nat
deriving DecidableEq

/-- Opaque stand-in for `release_architecture::ReleaseArchError`. -/
structure ReleaseArchError where
  detail : Nat
deriving DecidableEq

/-- Opaque stand-in for `release_version::ReleaseVersionError`. -/
structure ReleaseVersionError where
  detail : Nat
deriving DecidableEq

/-- A `tempfile::TempDir` handle, identified by the directory path it keeps
alive: dropping the handle removes the directory. -/
structure TempDir where
  path : String
deriving DecidableEq

/-- `RecoveryError` from `src/recovery/mod.rs`; `Download` boxes a nested
`RecoveryError` in the source. -/
inductive RecoveryError where
  | IsoNotFound
  | ApiError (why : ApiError)
  | Download (why : RecoveryError)
  | TempDir (why : IoError)
  | Io (why : IoError)
  | Fetch (url : String) (why : IoError)
  | Checksum (path : String) (why : ValidateError)
  | RecoveryNotFound
  | EfiNotFound
  | Probe (why : IoError)
  | ReleaseArch (why : ReleaseArchError)
  | ReleaseVersion (why : ReleaseVersionError)
deriving DecidableEq

/-- The observable steps of `from_remote`, in the order the source performs
them; each event is recorded when the corresponding call returns
successfully, except `checksumChecked`, which is recorded when
`validate_checksum` is invoked (whatever its outcome). -/
inductive RemoteEvent where
  | tempdirCreated
  | fileOpened (path : String)
  | fetchReturned (url : String)
  | fileFlushed
  | fileSeeked (pos : Nat)
  | checksumChecked (path : String)
deriving DecidableEq

/-- Outcomes of the external calls `from_remote` makes, in source order:
`tempfile::tempdir`, `OpenOptions::open`, `ParallelGetter::get` (the join of
all eight download workers), `File::flush`, `File::seek`, and
`validate_checksum`. -/
structure RemoteEnv where
  tempdirResult : Except IoError TempDir
  openResult : Except IoError Unit
  fetchResult : Except IoError Unit
  flushResult : Except IoError Unit
  seekResult : Except IoError Unit
  checksumResult : String → Except ValidateError Unit

/-- Result of a `from_remote` run: the returned value, the final state of the
caller-supplied `temp_dir` slot, and the event trace. -/
structure RemoteRun where
  res : Except RecoveryError String
  temp_out : Option TempDir
  trace : List RemoteEvent
deriving DecidableEq

/-- `from_remote` from `src/recovery/mod.rs`: create a temporary directory,
open `new.iso` inside it, download with eight parallel workers, flush, seek
back to the start, validate the checksum, and only then store the `TempDir`
handle into the caller's `temp_dir` slot and return the ISO path. Every
failing step returns the corresponding error immediately. -/
def from_remote (temp_dir : Option TempDir) (url checksum : String)
    (env : RemoteEnv) : RemoteRun :=
  match env.tempdirResult with
  | .error why => ⟨.error (.TempDir why), temp_dir, []⟩
  | .ok temp =>
    let path := temp.path ++ "/new.iso"
    match env.openResult with
    | .error why => ⟨.error (.Io why), temp_dir, [.tempdirCreated]⟩
    | .ok _ =>
      match env.fetchResult with
      | .error why =>
          ⟨.error (.Fetch url why), temp_dir,
           [.tempdirCreated, .fileOpened path]⟩
      | .ok _ =>
        match env.flushResult with
        | .error why =>
            ⟨.error (.Io why), temp_dir,
             [.tempdirCreated, .fileOpened path, .fetchReturned url]⟩
        | .ok _ =>
          match env.seekResult with
          | .error why =>
              ⟨.error (.Io why), temp_dir,
               [.tempdirCreated, .fileOpened path, .fetchReturned url,
                .fileFlushed]⟩
          | .ok _ =>
            match env.checksumResult checksum with
            | .error why =>
                ⟨.error (.Checksum path why), temp_dir,
                 [.tempdirCreated, .fileOpened path, .fetchReturned url,
                  .fileFlushed, .fileSeeked 0, .checksumChecked path]⟩
            | .ok _ =>
                ⟨.ok path, some temp,
                 [.tempdirCreated, .fileOpened path, .fetchReturned url,
                  .fileFlushed, .fileSeeked 0, .checksumChecked path]⟩

/-- `from_file` from `src/recovery/mod.rs`: return the given PATH argument if
a file exists there, `IsoNotFound` otherwise. The filesystem is abstracted
as the existence predicate the function consults. -/
def from_file (path : String) (pathExistsFn : String → Bool) :
    Except RecoveryError String :=
  if pathExistsFn path then .ok path else .error .IsoNotFound

/-- The fields of `release_api::Release` that `from_release` uses. -/
structure ReleaseInfo where
  url : String
  sha_sum : String
deriving DecidableEq

/-- Inputs of `from_release`: the optional VERSION and ARCH arguments and the
`next` flag from the CLI matches, the outcomes of the `detect_version`,
`detect_arch` and `Release::get_release` collaborators, and the environment
of the nested `from_remote` call. -/
structure ReleaseEnv where
  versionArg : Option String
  archArg : Option String
  nextFlag : Bool
  detectVersionResult : Except ReleaseVersionError (String × String)
  detectArchResult : Except ReleaseArchError String
  getReleaseResult : String → String → Except ApiError ReleaseInfo
  remote : RemoteEnv

/-- `from_release` from `src/recovery/mod.rs`: resolve the version (explicit
argument, or the detected current/next pair selected by the `next` flag),
resolve the architecture, query the catalog for the release descriptor, and
delegate to `from_remote`, wrapping its failure in `Download`. -/
def from_release (temp : Option TempDir) (env : ReleaseEnv) :
    Except RecoveryError String × Option TempDir :=
  let versionRes : Except RecoveryError String :=
    match env.versionArg with
    | some v => .ok v
    | none =>
        match env.detectVersionResult with
        | .error why => .error (.ReleaseVersion why)
        | .ok vs => .ok (if env.nextFlag then vs.2 else vs.1)
  match versionRes with
  | .error e => (.error e, temp)
  | .ok version =>
    let archRes : Except RecoveryError String :=
      match env.archArg with
      | some a => .ok a
      | none =>
          match env.detectArchResult with
          | .error why => .error (.ReleaseArch why)
          | .ok a => .ok a
    match archRes with
    | .error e => (.error e, temp)
    | .ok arch =>
      match env.getReleaseResult version arch with
      | .error why => (.error (.ApiError why), temp)
      | .ok release =>
          let run := from_remote temp release.url release.sha_sum env.remote
          match run.res with
          | .error why => (.error (.Download why), run.temp_out)
          | .ok path => (.ok path, run.temp_out)

/-- Modelled from the spec: the filesystem kinds of the external partition
library (`disk_types::FileSystem`); the probe contract filters candidates by
a predicate over these kinds. -/
inductive FileSystem where
  | Btrfs
  | Exfat
  | Ext2
  | Ext3
  | Ext4
  | F2fs
  | Fat16
  | Fat32
  | Ntfs
  | Swap
  | Xfs
  | Luks
  | Lvm
deriving DecidableEq, BEq

/-- Rust's `Path::join` with a relative component, on string paths: a
separator is inserted unless the base already ends with one. -/
def pathJoin (base child : String) : String :=
  if base.data.getLast? = some '/' then base ++ child
  else base ++ "/" ++ child

/-- The synchronization operations `fetch_iso` issues: `rsync` tree mirrors
and individual `misc::cp` file copies, with their concrete arguments. -/
inductive SyncEvent where
  | rsyncOp (sources : List String) (dest : String) (flags : List String)
  | cpOp (source : String) (dest : String)
deriving DecidableEq

/-- The subcommand under `upgrade`, selecting how the ISO is obtained. -/
inductive RecoverySubcmd where
  | fromRelease (renv : ReleaseEnv)
  | fromFile (path : String)

/-- Outcomes of the external calls `fetch_iso` makes: the path-existence
checks, `findmnt_uuid`, the mount `tempdir`, `Mount::new`, the two `rsync`
mirrors and the two `misc::cp` copies. -/
structure FetchEnv where
  pathExistsFn : String → Bool
  findmntResult : Except IoError String
  isoTempdirResult : Except IoError TempDir
  mountResult : Except IoError Unit
  rsync1Result : Except IoError Unit
  rsync2Result : Except IoError Unit
  cp1Result : Except IoError Unit
  cp2Result : Except IoError Unit

/-- The `match matches.subcommand()` inside `fetch_iso` that resolves the
ISO path: `from-release` runs `from_release` against the fresh
`temp_iso_dir` slot (initialized to `None`), `from-file` runs `from_file`. -/
def iso_source (cmd : RecoverySubcmd) (pathExistsFn : String → Bool) :
    Except RecoveryError String × Option TempDir :=
  match cmd with
  | .fromRelease renv => from_release none renv
  | .fromFile p => (from_file p pathExistsFn, none)

/-- `fetch_iso` from `src/recovery/mod.rs`: check the handed recovery mount
path and the EFI directory, read the recovery partition's filesystem UUID,
resolve the ISO, mount it read-only on a fresh temporary directory, mirror
`.disk`, `dists` and `pool` onto the recovery root, mirror the `casper/`
subtree onto the recovery partition's `casper-<UUID>` directory, and copy
`initrd.gz` and `vmlinuz.efi` from that casper directory into the EFI
partition's `Recovery-<UUID>` directory. The trace records each rsync and cp
invocation with its concrete arguments. -/
def fetch_iso (cmd : RecoverySubcmd) (recovery_path : String)
    (env : FetchEnv) : Except RecoveryError Unit × List SyncEvent :=
  if env.pathExistsFn recovery_path = false then
    (.error .RecoveryNotFound, [])
  else if env.pathExistsFn "/boot/efi/EFI/" = false then
    (.error .EfiNotFound, [])
  else
    match env.findmntResult with
    | .error why => (.error (.Io why), [])
    | .ok recovery_uuid =>
      let casper := "casper-" ++ recovery_uuid
      let recovery := "Recovery-" ++ recovery_uuid
      match (iso_source cmd env.pathExistsFn).1 with
      | .error e => (.error e, [])
      | .ok _iso =>
        match env.isoTempdirResult with
        | .error why => (.error (.TempDir why), [])
        | .ok tempdir =>
          match env.mountResult with
          | .error why => (.error (.Io why), [])
          | .ok _ =>
            let disk := pathJoin tempdir.path ".disk"
            let dists := pathJoin tempdir.path "dists"
            let pool := pathJoin tempdir.path "pool"
            let casper_p := pathJoin tempdir.path "casper/"
            let efi_recovery := pathJoin "/boot/efi/EFI/" recovery
            let efi_initrd := pathJoin efi_recovery "initrd.gz"
            let efi_vmlinuz := pathJoin efi_recovery "vmlinuz.efi"
            let casper_initrd :=
              pathJoin recovery_path (casper ++ "/initrd.gz")
            let casper_vmlinuz :=
              pathJoin recovery_path (casper ++ "/vmlinuz.efi")
            let flags := ["-KLavc", "--inplace", "--delete"]
            let ev1 := SyncEvent.rsyncOp [disk, dists, pool] recovery_path
              flags
            match env.rsync1Result with
            | .error why => (.error (.Io why), [ev1])
            | .ok _ =>
              let ev2 := SyncEvent.rsyncOp [casper_p]
                (recovery_path ++ "/" ++ casper) flags
              match env.rsync2Result with
              | .error why => (.error (.Io why), [ev1, ev2])
              | .ok _ =>
                let ev3 := SyncEvent.cpOp casper_initrd efi_initrd
                match env.cp1Result with
                | .error why => (.error (.Io why), [ev1, ev2, ev3])
                | .ok _ =>
                  let ev4 := SyncEvent.cpOp casper_vmlinuz efi_vmlinuz
                  match env.cp2Result with
                  | .error why => (.error (.Io why), [ev1, ev2, ev3, ev4])
                  | .ok _ => (.ok (), [ev1, ev2, ev3, ev4])

/-- The two subcommands of the `recovery` entry point; the source's final
match arm is `unreachable` because the CLI layer admits no other
subcommand. -/
inductive Subcmd where
  | defaultBoot
  | upgrade (cmd : RecoverySubcmd)

/-- The filesystem predicate `recovery` hands to the probe: the closure
`|fs| fs == Fat16 || fs == Fat32` at the call site. -/
def recoveryFsOk (fs : FileSystem) : Bool :=
  fs == FileSystem.Fat16 || fs == FileSystem.Fat32

/-- `recovery` from `src/recovery/mod.rs`, parametric in the external
partition-probe collaborator (`Disks::probe_for`): `default-boot` hits an
unimplemented-macro abort; `upgrade` probes with marker file
`recovery.conf`, reuse path `/recovery` and the FAT predicate, runs
`fetch_iso` as the handler, and wraps a scan failure in `Probe`. -/
def recovery
    (probe : String → String → (FileSystem → Bool) →
      (String → Except RecoveryError Unit) →
      Except IoError (Except RecoveryError Unit))
    (sub : Subcmd) (env : FetchEnv) : PanicOr (Except RecoveryError Unit) :=
  match sub with
  | .defaultBoot => .panicked "default-boot is not implemented"
  | .upgrade cmd =>
      match probe "recovery.conf" "/recovery" recoveryFsOk
          (fun device_mount_path =>
            (fetch_iso cmd device_mount_path env).1) with
      | .error why => .ok (.error (.Probe why))
      | .ok r => .ok r


/-- C1: for every build-check function, `next_` realizes the transition table
exactly: (18,4) goes to "20.04" as an LTS jump, (19,10) to "20.04", (20,4) to
"20.10" as LTS, (20,10) to "21.04" with the build query gated on the
development flag, and (21,4) to "21.10" always Blacklisted; in the
non-blacklisted rows the build field is the build-check function applied to
the next-version string, and in the blacklisted rows the result never
depends on the build-check function. -/
theorem next_transition_table (release_check : String → BuildStatus)
    (development : Bool) (patch : Nat) :
    next_ ⟨18, 4, patch⟩ development release_check =
      .ok ⟨"18.04", "20.04", release_check "20.04", true⟩ ∧
    next_ ⟨19, 10, patch⟩ development release_check =
      .ok ⟨"19.10", "20.04", release_check "20.04", false⟩ ∧
    next_ ⟨20, 4, patch⟩ development release_check =
      .ok ⟨"20.04", "20.10", release_check "20.10", true⟩ ∧
    next_ ⟨20, 10, patch⟩ development release_check =
      .ok ⟨"20.10", "21.04",
           if development then release_check "21.04" else .Blacklisted,
           false⟩ ∧
    next_ ⟨21, 4, patch⟩ development release_check =
      .ok ⟨"21.04", "21.10", .Blacklisted, false⟩ :=
  ⟨rfl, rfl, rfl, rfl, rfl⟩

/-- C2 counterexample: at the unsupported pair (17, 10) the resolution
functions terminate the process with the unsupported-release panic; no error
value (and in particular no UnsupportedRelease-style result) is surfaced to
the caller. -/
theorem unsupported_release_error_cex :
    next_ ⟨17, 10, 0⟩ false (fun _ => BuildStatus.Blacklisted) =
      .panicked unsupportedMsg ∧
    release_str 17 10 = .panicked unsupportedMsg :=
  ⟨rfl, rfl⟩

/-- C2 (amended): for any (major, minor) pair outside the forward-transition
table, `next_` and `release_str` produce no value at all: both reach the
catch-all arm and abort the process with a panic, rather than returning an
error result. -/
theorem unsupported_release_aborts (major minor : Nat)
    (h : ¬ supportedPair major minor) (development : Bool) (patch : Nat)
    (release_check : String → BuildStatus) :
    next_ ⟨major, minor, patch⟩ development release_check =
      .panicked unsupportedMsg ∧
    release_str major minor = .panicked unsupportedMsg := by
  unfold next_ release_str
  constructor
  · split <;> simp_all [supportedPair]
  · split <;> simp_all [supportedPair]

/-- Witness for the amended C2 theorem at the concrete pair (22, 4). -/
theorem unsupported_release_aborts_witness :
    next_ ⟨22, 4, 0⟩ true (fun _ => BuildStatus.Blacklisted) =
      .panicked unsupportedMsg ∧
    release_str 22 4 = .panicked unsupportedMsg :=
  unsupported_release_aborts 22 4 (by decide) true 0 _

/-- C3: `release_str` maps (19, 10) to the string "18.10", although `next_`
itself uses "19.10" as the current-version string for the very same pair;
the four remaining table rows produce the expected "major.minor" strings. -/
theorem release_str_table :
    release_str 18 4 = .ok "18.04" ∧
    release_str 19 10 = .ok "18.10" ∧
    release_str 20 4 = .ok "20.04" ∧
    release_str 20 10 = .ok "20.10" ∧
    release_str 21 4 = .ok "21.04" ∧
    next_ ⟨19, 10, 0⟩ false (fun _ => BuildStatus.Blacklisted) =
      .ok ⟨"19.10", "20.04", .Blacklisted, false⟩ :=
  ⟨rfl, rfl, rfl, rfl, rfl, rfl⟩

/-- C4 counterexample: the Build arm returns the u16 build number through an
as-i16 cast, so Build(32768) yields the status code -32768, not 32768. -/
theorem status_code_build_cex :
    BuildStatus.status_code (.Build 32768) = -32768 ∧
    BuildStatus.status_code (.Build 32768) ≠ 32768 := by
  refine ⟨by decide, by decide⟩

/-- C4 (amended): `status_code` maps Build(n) through the u16-to-i16
two's-complement cast — n itself for n < 32768 and n - 65536 for the upper
half of the u16 range — and maps the remaining variants to the exact codes
-3, -2, -1 and -4 regardless of their inner causes. -/
theorem status_code_mapping (n : Nat) (h : n < 65536)
    (a : IsahcError) (b : ApiError) (c : StatusCode) :
    BuildStatus.status_code (.Build n) =
      (if n < 32768 then (n : Int) else (n : Int) - 65536) ∧
    BuildStatus.status_code (.ConnectionIssue a) = -3 ∧
    BuildStatus.status_code (.ServerStatus c) = -2 ∧
    BuildStatus.status_code (.InternalIssue b) = -1 ∧
    BuildStatus.status_code .Blacklisted = -4 := by
  refine ⟨?_, rfl, rfl, rfl, rfl⟩
  have h2 : n % 65536 = n := Nat.mod_eq_of_lt h
  simp only [BuildStatus.status_code, u16_as_i16, h2]

/-- Witness for the amended C4 theorem at the concrete build number 40000,
which lies in the wrapping half of the u16 range. -/
theorem status_code_mapping_witness :
    BuildStatus.status_code (.Build 40000) =
      (if (40000 : Nat) < 32768 then (40000 : Int)
       else (40000 : Int) - 65536) ∧
    BuildStatus.status_code (.ConnectionIssue ⟨0⟩) = -3 ∧
    BuildStatus.status_code (.ServerStatus ⟨404⟩) = -2 ∧
    BuildStatus.status_code (.InternalIssue (.Other 0)) = -1 ∧
    BuildStatus.status_code .Blacklisted = -4 :=
  status_code_mapping 40000 (by decide) ⟨0⟩ (.Other 0) ⟨404⟩

/-- C5: the PartialEq implementation of BuildStatus compares only the variant
kind, except on Build where it also compares the build numbers; values of
different variants are never equal. -/
theorem buildstatus_partial_eq (a b : IsahcError) (c d : ApiError)
    (s t : StatusCode) (m n : Nat) (x y : BuildStatus) :
    (BuildStatus.beq (.ConnectionIssue a) (.ConnectionIssue b) = true ∧
     BuildStatus.beq (.InternalIssue c) (.InternalIssue d) = true ∧
     BuildStatus.beq (.ServerStatus s) (.ServerStatus t) = true ∧
     BuildStatus.beq .Blacklisted .Blacklisted = true ∧
     (BuildStatus.beq (.Build m) (.Build n) = true ↔ m = n)) ∧
    (x.tag ≠ y.tag → BuildStatus.beq x y = false) := by
  refine ⟨⟨rfl, rfl, rfl, rfl, ?_⟩, ?_⟩
  · simp [BuildStatus.beq]
  · cases x <;> cases y <;> simp [BuildStatus.beq, BuildStatus.tag]

/-- Witness for the C5 theorem: Blacklisted and Build(5) are of different
variants and compare unequal. -/
theorem buildstatus_partial_eq_witness :
    BuildStatus.beq .Blacklisted (.Build 5) = false :=
  (buildstatus_partial_eq ⟨0⟩ ⟨0⟩ (.Other 0) (.Other 0) ⟨0⟩ ⟨0⟩ 0 0
      .Blacklisted (.Build 5)).2 (by decide)

/-- A fully successful `from_remote` environment, used to witness the
download theorems. -/
def allOkRemoteEnv : RemoteEnv :=
  ⟨.ok ⟨"/tmp/t0"⟩, .ok (), .ok (), .ok (), .ok (), fun _ => .ok ()⟩

/-- C6: whenever `from_remote` invokes checksum validation, the run's trace
is exactly the successful prelude — temporary directory created, `new.iso`
opened, the parallel download of all workers returned, the file flushed, the
read cursor repositioned to offset 0 — followed by the validation of that
very file; and after a failed (hence possibly partial) transfer the
validation is never invoked. -/
theorem from_remote_checksum_order (td : Option TempDir)
    (url checksum : String) (env : RemoteEnv) :
    (∀ p, RemoteEvent.checksumChecked p ∈
        (from_remote td url checksum env).trace →
      ∃ tmp, env.tempdirResult = .ok tmp ∧ p = tmp.path ++ "/new.iso" ∧
        (from_remote td url checksum env).trace =
          [.tempdirCreated, .fileOpened p, .fetchReturned url,
           .fileFlushed, .fileSeeked 0, .checksumChecked p]) ∧
    (∀ why, env.fetchResult = .error why →
      ∀ p, RemoteEvent.checksumChecked p ∉
        (from_remote td url checksum env).trace) := by
  obtain ⟨t, o, f, fl, sk, ck⟩ := env
  cases t <;> cases o <;> cases f <;> cases fl <;> cases sk <;>
    cases hck : ck checksum <;> simp_all [from_remote]

/-- Witness for the C6 theorem on an all-successful environment. -/
theorem from_remote_checksum_order_witness :
    ∃ tmp, allOkRemoteEnv.tempdirResult = .ok tmp ∧
      "/tmp/t0/new.iso" = tmp.path ++ "/new.iso" ∧
      (from_remote none "http:server/pop.iso" "deadbeef"
          allOkRemoteEnv).trace =
        [.tempdirCreated, .fileOpened "/tmp/t0/new.iso",
         .fetchReturned "http:server/pop.iso", .fileFlushed, .fileSeeked 0,
         .checksumChecked "/tmp/t0/new.iso"] :=
  (from_remote_checksum_order none "http:server/pop.iso" "deadbeef"
      allOkRemoteEnv).1 "/tmp/t0/new.iso" (by decide)

/-- C10: `from_remote` stores a TempDir handle into the caller's slot only
when the whole pipeline, checksum validation included, has succeeded: every
error path returns the error with the slot exactly as it was, and a
successful return implies the checksum passed, the slot now holds the
freshly created temporary directory, and the returned path is its
`new.iso`. -/
theorem from_remote_temp_dir_discipline (td : Option TempDir)
    (url checksum : String) (env : RemoteEnv) :
    (∀ e, (from_remote td url checksum env).res = .error e →
      (from_remote td url checksum env).temp_out = td) ∧
    (∀ p, (from_remote td url checksum env).res = .ok p →
      env.checksumResult checksum = .ok () ∧
      ∃ tmp, env.tempdirResult = .ok tmp ∧
        (from_remote td url checksum env).temp_out = some tmp ∧
        p = tmp.path ++ "/new.iso") := by
  obtain ⟨t, o, f, fl, sk, ck⟩ := env
  cases t <;> cases o <;> cases f <;> cases fl <;> cases sk <;>
    cases hck : ck checksum <;> simp_all [from_remote]

/-- Witness for the C10 theorem: an all-successful run fills the slot with
the created temporary directory. -/
theorem from_remote_temp_dir_discipline_witness :
    allOkRemoteEnv.checksumResult "deadbeef" = .ok () ∧
    ∃ tmp, allOkRemoteEnv.tempdirResult = .ok tmp ∧
      (from_remote (some ⟨"/tmp/old"⟩) "http:server/pop.iso" "deadbeef"
          allOkRemoteEnv).temp_out = some tmp ∧
      "/tmp/t0/new.iso" = tmp.path ++ "/new.iso" :=
  (from_remote_temp_dir_discipline (some ⟨"/tmp/old"⟩) "http:server/pop.iso"
      "deadbeef" allOkRemoteEnv).2 "/tmp/t0/new.iso" (by decide)

/-- C8: `from_file` returns its PATH argument exactly when a file exists at
that path and fails with `IsoNotFound` otherwise; it consults nothing but
the existence predicate and mutates nothing. -/
theorem from_file_spec (path : String) (pathExistsFn : String → Bool) :
    (pathExistsFn path = true → from_file path pathExistsFn = .ok path) ∧
    (pathExistsFn path = false →
      from_file path pathExistsFn = .error .IsoNotFound) := by
  constructor <;> intro h <;> simp [from_file, h]

/-- Witness for the C8 theorem at two concrete paths, one existing and one
absent. -/
theorem from_file_spec_witness :
    from_file "/iso/pop.iso" (fun _ => true) = .ok "/iso/pop.iso" ∧
    from_file "/iso/gone.iso" (fun _ => false) = .error .IsoNotFound :=
  ⟨(from_file_spec "/iso/pop.iso" (fun _ => true)).1 rfl,
   (from_file_spec "/iso/gone.iso" (fun _ => false)).2 rfl⟩

/-- A fully successful `fetch_iso` environment with UUID 1234-ABCD and the
mount placed at /tmp/isomount, used for the synchronization theorems. -/
def allOkFetchEnv : FetchEnv :=
  ⟨fun _ => true, .ok "1234-ABCD", .ok ⟨"/tmp/isomount"⟩, .ok (), .ok (),
   .ok (), .ok (), .ok ()⟩

/-- C7 counterexample: in a fully successful run the two boot payload copies
read from the recovery partition's `casper-<UUID>` directory, not from the
mounted image: the copy source `/recovery/casper-1234-ABCD/initrd.gz` does
not lie under the image's mount point `/tmp/isomount`. -/
theorem fetch_iso_cp_source_cex :
    (fetch_iso (.fromFile "/iso/pop.iso") "/recovery" allOkFetchEnv).2 =
      [.rsyncOp ["/tmp/isomount/.disk", "/tmp/isomount/dists",
                 "/tmp/isomount/pool"] "/recovery"
         ["-KLavc", "--inplace", "--delete"],
       .rsyncOp ["/tmp/isomount/casper/"] "/recovery/casper-1234-ABCD"
         ["-KLavc", "--inplace", "--delete"],
       .cpOp "/recovery/casper-1234-ABCD/initrd.gz"
         "/boot/efi/EFI/Recovery-1234-ABCD/initrd.gz",
       .cpOp "/recovery/casper-1234-ABCD/vmlinuz.efi"
         "/boot/efi/EFI/Recovery-1234-ABCD/vmlinuz.efi"] ∧
    List.isPrefixOf "/tmp/isomount".data
      "/recovery/casper-1234-ABCD/initrd.gz".data = false :=
  ⟨by decide, by decide⟩

/-- C7 (amended): after the directory mirrors — `.disk`, `dists`, `pool`
onto the recovery root, then the mounted image's `casper/` subtree onto the
recovery partition's `casper-<UUID>` directory — exactly the two boot
payload files `initrd.gz` and `vmlinuz.efi` are copied individually, with
overwrite semantics, from the recovery partition's `casper-<UUID>` directory
just populated by that mirror into the EFI partition's `Recovery-<UUID>`
subdirectory, where `<UUID>` is the recovery partition's filesystem UUID. -/
theorem fetch_iso_sync_sequence (cmd : RecoverySubcmd)
    (recovery_path uuid : String) (mountDir : TempDir) (env : FetchEnv)
    (hrec : env.pathExistsFn recovery_path = true)
    (hefi : env.pathExistsFn "/boot/efi/EFI/" = true)
    (huuid : env.findmntResult = .ok uuid)
    (hiso : ∃ iso, (iso_source cmd env.pathExistsFn).1 = .ok iso)
    (htmp : env.isoTempdirResult = .ok mountDir)
    (hmount : env.mountResult = .ok ())
    (h1 : env.rsync1Result = .ok ()) (h2 : env.rsync2Result = .ok ())
    (h3 : env.cp1Result = .ok ()) (h4 : env.cp2Result = .ok ()) :
    fetch_iso cmd recovery_path env =
      (.ok (),
       [.rsyncOp [pathJoin mountDir.path ".disk",
                  pathJoin mountDir.path "dists",
                  pathJoin mountDir.path "pool"] recovery_path
          ["-KLavc", "--inplace", "--delete"],
        .rsyncOp [pathJoin mountDir.path "casper/"]
          (recovery_path ++ "/" ++ ("casper-" ++ uuid))
          ["-KLavc", "--inplace", "--delete"],
        .cpOp (pathJoin recovery_path (("casper-" ++ uuid) ++ "/initrd.gz"))
          (pathJoin (pathJoin "/boot/efi/EFI/" ("Recovery-" ++ uuid))
            "initrd.gz"),
        .cpOp (pathJoin recovery_path (("casper-" ++ uuid) ++ "/vmlinuz.efi"))
          (pathJoin (pathJoin "/boot/efi/EFI/" ("Recovery-" ++ uuid))
            "vmlinuz.efi")]) := by
  obtain ⟨iso, hs⟩ := hiso
  obtain ⟨pe, fm, it, mt, r1, r2, c1, c2⟩ := env
  simp only [FetchEnv.pathExistsFn] at hrec hefi hs
  simp only [FetchEnv.findmntResult, FetchEnv.isoTempdirResult,
    FetchEnv.mountResult, FetchEnv.rsync1Result, FetchEnv.rsync2Result,
    FetchEnv.cp1Result, FetchEnv.cp2Result] at huuid htmp hmount h1 h2 h3 h4
  subst huuid htmp hmount h1 h2 h3 h4
  simp [fetch_iso, hrec, hefi, hs]

/-- Witness for the amended C7 theorem on the all-successful environment. -/
theorem fetch_iso_sync_sequence_witness :
    fetch_iso (.fromFile "/iso/pop.iso") "/recovery" allOkFetchEnv =
      (.ok (),
       [.rsyncOp [pathJoin "/tmp/isomount" ".disk",
                  pathJoin "/tmp/isomount" "dists",
                  pathJoin "/tmp/isomount" "pool"] "/recovery"
          ["-KLavc", "--inplace", "--delete"],
        .rsyncOp [pathJoin "/tmp/isomount" "casper/"]
          ("/recovery" ++ "/" ++ ("casper-" ++ "1234-ABCD"))
          ["-KLavc", "--inplace", "--delete"],
        .cpOp (pathJoin "/recovery" (("casper-" ++ "1234-ABCD") ++
            "/initrd.gz"))
          (pathJoin (pathJoin "/boot/efi/EFI/" ("Recovery-" ++ "1234-ABCD"))
            "initrd.gz"),
        .cpOp (pathJoin "/recovery" (("casper-" ++ "1234-ABCD") ++
            "/vmlinuz.efi"))
          (pathJoin (pathJoin "/boot/efi/EFI/" ("Recovery-" ++ "1234-ABCD"))
            "vmlinuz.efi")]) :=
  fetch_iso_sync_sequence (.fromFile "/iso/pop.iso") "/recovery" "1234-ABCD"
    ⟨"/tmp/isomount"⟩ allOkFetchEnv rfl rfl rfl ⟨"/iso/pop.iso", by decide⟩
    rfl rfl rfl rfl rfl rfl

/-- C9: the upgrade subcommand hands the probe exactly the marker file
`recovery.conf`, the reuse mount path `/recovery`, the FAT predicate and
`fetch_iso` as the handler: the predicate accepts precisely FAT16 and FAT32;
a scan failure surfaces as `Probe` wrapping the underlying I/O cause; when
the probe yields no qualifying partition — handing a mount path at which
nothing exists — the handler fails with `RecoveryNotFound`; and a probe
returning the handler's outcome is passed through unchanged. -/
theorem recovery_upgrade_probe (cmd : RecoverySubcmd) (env : FetchEnv)
    (probe : String → String → (FileSystem → Bool) →
      (String → Except RecoveryError Unit) →
      Except IoError (Except RecoveryError Unit)) :
    (∀ fs, recoveryFsOk fs = true ↔
      (fs = FileSystem.Fat16 ∨ fs = FileSystem.Fat32)) ∧
    (∀ why, probe "recovery.conf" "/recovery" recoveryFsOk
        (fun p => (fetch_iso cmd p env).1) = .error why →
      recovery probe (.upgrade cmd) env = .ok (.error (.Probe why))) ∧
    (∀ p, env.pathExistsFn p = false →
      (fetch_iso cmd p env).1 = .error .RecoveryNotFound) ∧
    (∀ r, probe "recovery.conf" "/recovery" recoveryFsOk
        (fun p => (fetch_iso cmd p env).1) = .ok r →
      recovery probe (.upgrade cmd) env = .ok r) := by
  refine ⟨fun fs => by cases fs <;> decide,
    fun why h => ?_, fun p hp => ?_, fun r h => ?_⟩
  · simp [recovery, h]
  · simp [fetch_iso, hp]
  · simp [recovery, h]

/-- An environment in which no path exists, used to witness the probe
theorem's not-found branch. -/
def noRecoveryFetchEnv : FetchEnv :=
  ⟨fun _ => false, .ok "1234-ABCD", .ok ⟨"/tmp/isomount"⟩, .ok (), .ok (),
   .ok (), .ok (), .ok ()⟩

/-- Witness for the C9 theorem: a failing scan is wrapped in `Probe`, and a
probed mount path at which nothing exists yields `RecoveryNotFound`. -/
theorem recovery_upgrade_probe_witness :
    recovery (fun _ _ _ _ => .error ⟨7⟩)
      (.upgrade (.fromFile "/iso/pop.iso")) noRecoveryFetchEnv =
      .ok (.error (.Probe ⟨7⟩)) ∧
    (fetch_iso (.fromFile "/iso/pop.iso") "/recovery"
        noRecoveryFetchEnv).1 = .error .RecoveryNotFound :=
  ⟨(recovery_upgrade_probe (.fromFile "/iso/pop.iso") noRecoveryFetchEnv
      (fun _ _ _ _ => .error ⟨7⟩)).2.1 ⟨7⟩ rfl,
   (recovery_upgrade_probe (.fromFile "/iso/pop.iso") noRecoveryFetchEnv
      (fun _ _ _ _ => .error ⟨7⟩)).2.2.1 "/recovery" rfl⟩


end PopUpgrade
